import Mathlib

/-!
Verification of the ProcessModal step sequencer.

Shallow embedding of `src/components/dashboard/ProcessModal.tsx`: the static
configuration tables (`processConfigs`, `resultStats`), the session state
(`currentStep`, `isComplete`) owned by the component, the `useEffect`
timer-driven sequencer (modelled as `runEffect` plus an event step relation),
and the `handleClose` action.  Timers are modelled explicitly: the state
carries the list of currently pending timer delays; the effect's cleanup
cancels the previously scheduled timer before the effect body schedules a new
one, which the model renders as `runEffect` replacing the pending list.
-/

/-- The closed enumeration `type ProcessType = "screenshots" | "recordings" | "cleanup"`. -/
inductive ProcessType where
  | screenshots
  | recordings
  | cleanup
deriving DecidableEq, BEq

/-- Icon component references used by the configuration tables
(`Camera`, `Video`, `Sparkles`, `FolderOpen`, `Trash2`, `FileCheck`, `Check`). -/
inductive IconRef where
  | camera
  | video
  | sparkles
  | folderOpen
  | trash2
  | fileCheck
  | check
deriving DecidableEq, BEq

/-- `interface ProcessStep { label: string; duration: number; icon: typeof Camera }`. -/
structure ProcessStep where
  label : String
  duration : Nat
  icon : IconRef
deriving DecidableEq, BEq

/-- The per-`ProcessType` bundle stored in `processConfigs`. -/
structure ProcessConfig where
  title : String
  subtitle : String
  icon : IconRef
  color : String
  bgColor : String
  steps : List ProcessStep
deriving DecidableEq, BEq

/-- The `processConfigs` record, transcribed field by field from the source. -/
def processConfigs : ProcessType → ProcessConfig
  | ProcessType.screenshots =>
    { title := "Organizando Capturas"
      subtitle := "Suas capturas de tela estão sendo organizadas automaticamente"
      icon := IconRef.camera
      color := "text-blue-500"
      bgColor := "bg-blue-500"
      steps :=
        [ { label := "Escaneando capturas de tela", duration := 1500, icon := IconRef.folderOpen }
        , { label := "Identificando aplicativos", duration := 1200, icon := IconRef.fileCheck }
        , { label := "Criando pastas por app", duration := 1000, icon := IconRef.folderOpen }
        , { label := "Movendo arquivos", duration := 1800, icon := IconRef.fileCheck }
        , { label := "Finalizando organização", duration := 800, icon := IconRef.check } ] }
  | ProcessType.recordings =>
    { title := "Organizando Gravações"
      subtitle := "Suas gravações estão sendo categorizadas e organizadas"
      icon := IconRef.video
      color := "text-purple-500"
      bgColor := "bg-purple-500"
      steps :=
        [ { label := "Escaneando gravações", duration := 1500, icon := IconRef.folderOpen }
        , { label := "Analisando metadados", duration := 1300, icon := IconRef.fileCheck }
        , { label := "Categorizando por data", duration := 1100, icon := IconRef.folderOpen }
        , { label := "Organizando em pastas", duration := 1600, icon := IconRef.fileCheck }
        , { label := "Concluindo processo", duration := 900, icon := IconRef.check } ] }
  | ProcessType.cleanup =>
    { title := "Limpeza Inteligente"
      subtitle := "Removendo arquivos duplicados e liberando espaço"
      icon := IconRef.sparkles
      color := "text-emerald-500"
      bgColor := "bg-emerald-500"
      steps :=
        [ { label := "Identificando duplicados", duration := 1400, icon := IconRef.folderOpen }
        , { label := "Localizando arquivos antigos", duration := 1200, icon := IconRef.trash2 }
        , { label := "Analisando espaço ocupado", duration := 1000, icon := IconRef.fileCheck }
        , { label := "Removendo desnecessários", duration := 1700, icon := IconRef.trash2 }
        , { label := "Liberando espaço", duration := 1100, icon := IconRef.check } ] }

/-- `{ value: string; label: string }` entries of the `resultStats` record. -/
structure ResultStat where
  value : String
  label : String
deriving DecidableEq, BEq

/-- The `resultStats` record, transcribed from the source. -/
def resultStats : ProcessType → ResultStat
  | ProcessType.screenshots => { value := "234", label := "capturas organizadas" }
  | ProcessType.recordings => { value := "18", label := "gravações organizadas" }
  | ProcessType.cleanup => { value := "1.2 GB", label := "de espaço liberado" }

/-- `const totalSteps = config.steps.length`. -/
def totalSteps (pt : ProcessType) : Nat := (processConfigs pt).steps.length

/-- The TypeScript `Record` literals, viewed as explicit key/value tables, for
reasoning about lookup totality. -/
def processConfigEntries : List (ProcessType × ProcessConfig) :=
  [ (ProcessType.screenshots, processConfigs ProcessType.screenshots)
  , (ProcessType.recordings, processConfigs ProcessType.recordings)
  , (ProcessType.cleanup, processConfigs ProcessType.cleanup) ]

/-- The `resultStats` record viewed as an explicit key/value table. -/
def resultStatEntries : List (ProcessType × ResultStat) :=
  [ (ProcessType.screenshots, resultStats ProcessType.screenshots)
  , (ProcessType.recordings, resultStats ProcessType.recordings)
  , (ProcessType.cleanup, resultStats ProcessType.cleanup) ]

/-- The lookup `processConfigs[processType]` as a fallible association-list search. -/
def configLookup (pt : ProcessType) : Option ProcessConfig :=
  (processConfigEntries.find? (fun e => e.1 == pt)).map Prod.snd

/-- The lookup `resultStats[processType]` as a fallible association-list search. -/
def statLookup (pt : ProcessType) : Option ResultStat :=
  (resultStatEntries.find? (fun e => e.1 == pt)).map Prod.snd

/-- The timer delay `config.steps[currentStep]?.duration || 1000`: optional
indexing with a `1000` fallback when the step is absent or its duration is
falsy (zero). -/
def timerDelay (pt : ProcessType) (cur : Nat) : Nat :=
  match (processConfigs pt).steps[cur]? with
  | some st => if st.duration = 0 then 1000 else st.duration
  | none => 1000

/-- The component's observable state: the `isOpen` prop, the two `useState`
cells `currentStep` and `isComplete`, and the delays of the timers currently
pending in the host environment (scheduled by `setTimeout`, cancelled by
`clearTimeout`). -/
structure ModalState where
  isOpen : Bool
  currentStep : Nat
  isComplete : Bool
  pendingTimers : List Nat
deriving DecidableEq

/-- One settled run of the `useEffect` body after its cleanup has cancelled the
previously scheduled timer (hence `pendingTimers` is replaced wholesale):
`if (!isOpen) { setCurrentStep(0); setIsComplete(false); return; }`
`if (currentStep >= totalSteps) { setIsComplete(true); return; }`
`const timer = setTimeout(..., config.steps[currentStep]?.duration || 1000)`. -/
def runEffect (pt : ProcessType) (s : ModalState) : ModalState :=
  if s.isOpen = false then
    { s with currentStep := 0, isComplete := false, pendingTimers := [] }
  else if totalSteps pt ≤ s.currentStep then
    { s with isComplete := true, pendingTimers := [] }
  else
    { s with pendingTimers := [timerDelay pt s.currentStep] }

/-- External events driving the component: a pending timer fires
(`setCurrentStep(prev => prev + 1)`), the parent flips the `isOpen` prop, or
the user presses a button, invoking `handleClose`. -/
inductive ModalEvent where
  | fire
  | setOpen (b : Bool)
  | pressClose

/-- `handleClose`: reset both state cells, then invoke the caller's `onClose`.
The second component records that `onClose` was invoked. -/
def handleClose (s : ModalState) : ModalState × Bool :=
  ({ s with currentStep := 0, isComplete := false }, true)

/-- The state reached after an event is handled and the effect has settled:
a firing timer is consumed and increments `currentStep`; a prop change or a
state update re-runs the effect, whose cleanup cancels the stale timer first. -/
def stepEvent (pt : ProcessType) (s : ModalState) : ModalEvent → ModalState
  | ModalEvent.fire =>
    match s.pendingTimers with
    | [] => s
    | _ :: _ =>
      runEffect pt { s with currentStep := s.currentStep + 1, pendingTimers := [] }
  | ModalEvent.setOpen b => runEffect pt { s with isOpen := b, pendingTimers := [] }
  | ModalEvent.pressClose => runEffect pt (handleClose s).1

/-- The state right after the component mounts with the given `isOpen` prop:
both `useState` cells start at `(0, false)` and the effect runs once. -/
def initState (pt : ProcessType) (b : Bool) : ModalState :=
  runEffect pt { isOpen := b, currentStep := 0, isComplete := false, pendingTimers := [] }

/-- States reachable while the component runs. -/
inductive Reachable (pt : ProcessType) : ModalState → Prop where
  | init (b : Bool) : Reachable pt (initState pt b)
  | step (s : ModalState) (e : ModalEvent) : Reachable pt s → Reachable pt (stepEvent pt s e)

/-- `const progress = isComplete ? 100 : (currentStep / totalSteps) * 100`. -/
def progress (pt : ProcessType) (s : ModalState) : ℚ :=
  if s.isComplete = true then 100
  else ((s.currentStep : ℚ) / (totalSteps pt : ℚ)) * 100

/-- Iterated timer firings for the `cleanup` sequence, starting from a freshly
opened modal. -/
def cleanupAfterFires (n : Nat) : ModalState :=
  (fun s => stepEvent ProcessType.cleanup s ModalEvent.fire)^[n]
    (initState ProcessType.cleanup true)

/-- Every configuration has five steps. -/
theorem totalSteps_eq_five (pt : ProcessType) : totalSteps pt = 5 := by
  cases pt <;> rfl

/-- Every configuration has at least one step. -/
theorem totalSteps_pos (pt : ProcessType) : 0 < totalSteps pt := by
  rw [totalSteps_eq_five]
  exact Nat.succ_pos 4

/-- The master invariant of the sequencer: `currentStep` stays within bounds,
`isComplete` holds exactly in open states that reached the last step, closed
states are fully reset, and a timer is pending exactly in open, unfinished
states (hence never more than one). -/
def SeqInv (pt : ProcessType) (s : ModalState) : Prop :=
  s.currentStep ≤ totalSteps pt ∧
  (s.isComplete = true ↔ (s.isOpen = true ∧ totalSteps pt ≤ s.currentStep)) ∧
  (s.isOpen = false → s.currentStep = 0 ∧ s.isComplete = false ∧ s.pendingTimers = []) ∧
  (s.pendingTimers ≠ [] ↔ (s.isOpen = true ∧ s.currentStep < totalSteps pt)) ∧
  s.pendingTimers.length ≤ 1

theorem inv_runEffect (pt : ProcessType) (s : ModalState)
    (hcur : s.currentStep ≤ totalSteps pt)
    (hcomp : s.isOpen = true → s.isComplete = true → totalSteps pt ≤ s.currentStep) :
    SeqInv pt (runEffect pt s) := by
  unfold SeqInv runEffect
  by_cases ho : s.isOpen = false
  · simp [ho]
  · have ho' : s.isOpen = true := by
      cases hh : s.isOpen
      · exact absurd hh ho
      · rfl
    by_cases hd : totalSteps pt ≤ s.currentStep
    · simp [ho, ho', hd, hcur]
    · have hlt : s.currentStep < totalSteps pt := Nat.lt_of_not_le hd
      have hcf : s.isComplete = false := by
        cases hc : s.isComplete
        · rfl
        · exact absurd (hcomp ho' hc) hd
      simp [ho, ho', hd, hcur, hcf, hlt]

theorem inv_init (pt : ProcessType) (b : Bool) : SeqInv pt (initState pt b) := by
  apply inv_runEffect
  · exact Nat.zero_le _
  · intro _ hc
    exact absurd hc (by simp)

theorem inv_step (pt : ProcessType) (s : ModalState) (e : ModalEvent) (h : SeqInv pt s) :
    SeqInv pt (stepEvent pt s e) := by
  obtain ⟨h1, h2, h3, h4, h5⟩ := h
  cases e with
  | fire =>
    cases hp : s.pendingTimers with
    | nil =>
      simp only [stepEvent, hp]
      exact ⟨h1, h2, h3, by rw [hp] at h4 ⊢; exact h4, by rw [hp]; exact Nat.zero_le _⟩
    | cons d rest =>
      have hpen : s.pendingTimers ≠ [] := by rw [hp]; exact List.cons_ne_nil d rest
      obtain ⟨_, hlt⟩ := h4.mp hpen
      simp only [stepEvent, hp]
      apply inv_runEffect
      · exact hlt
      · intro _ hc
        exact absurd (h2.mp hc).2 (Nat.not_le_of_lt hlt)
  | setOpen b =>
    apply inv_runEffect
    · exact h1
    · intro _ hc
      exact (h2.mp hc).2
  | pressClose =>
    apply inv_runEffect
    · exact Nat.zero_le _
    · intro _ hc
      exact absurd hc (by simp [handleClose])

theorem inv_reachable (pt : ProcessType) (s : ModalState) (h : Reachable pt s) :
    SeqInv pt s := by
  induction h with
  | init b => exact inv_init pt b
  | step s e _ ih => exact inv_step pt s e ih

/-- `runEffect` never changes `currentStep` while the modal is open. -/
theorem runEffect_currentStep (pt : ProcessType) (s : ModalState) (ho : s.isOpen = true) :
    (runEffect pt s).currentStep = s.currentStep := by
  unfold runEffect
  split_ifs with hc hd
  · rw [ho] at hc
    exact absurd hc (by simp)
  · rfl
  · rfl

/-- Claim C1, as stated, is false: the `cleanup` configuration defines five
steps, not six. -/
theorem cleanup_steps_not_six :
    ¬ ((processConfigs ProcessType.cleanup).steps.length = 6) := by
  decide

/-- Claim C1 (amended): the `cleanup` step sequence has 5 steps; after all 5
timers fire in sequence `isComplete` is true, and the displayed result is
`"1.2 GB"` / `"de espaço liberado"`. -/
theorem cleanup_run_completes :
    (processConfigs ProcessType.cleanup).steps.length = 5 ∧
    (cleanupAfterFires 5).isComplete = true ∧
    resultStats ProcessType.cleanup =
      { value := "1.2 GB", label := "de espaço liberado" } := by
  refine ⟨rfl, ?_, rfl⟩
  decide

/-- Claim C4: setting `isOpen` to false, in any state whatsoever, resets the
state to `(0, false)` with no pending timer; reopening from there restarts the
sequence at step 0 with the first step's timer scheduled. -/
theorem close_resets_and_reopen_restarts (pt : ProcessType) (s : ModalState) :
    stepEvent pt s (ModalEvent.setOpen false) =
      { isOpen := false, currentStep := 0, isComplete := false, pendingTimers := [] } ∧
    stepEvent pt (stepEvent pt s (ModalEvent.setOpen false)) (ModalEvent.setOpen true) =
      { isOpen := true, currentStep := 0, isComplete := false,
        pendingTimers := [timerDelay pt 0] } := by
  constructor
  · simp [stepEvent, runEffect]
  · have h0 : ¬ (totalSteps pt ≤ 0) := Nat.not_le_of_lt (totalSteps_pos pt)
    simp [stepEvent, runEffect, h0]

/-- Claim C5: `handleClose`, called in any state, resets `currentStep` to 0 and
`isComplete` to false and invokes the caller-supplied `onClose`; the
`pressClose` event is exactly `handleClose` followed by the settled effect. -/
theorem handleClose_resets_and_notifies (pt : ProcessType) (s : ModalState) :
    (handleClose s).1.currentStep = 0 ∧
    (handleClose s).1.isComplete = false ∧
    (handleClose s).2 = true ∧
    stepEvent pt s ModalEvent.pressClose = runEffect pt (handleClose s).1 :=
  ⟨rfl, rfl, rfl, rfl⟩

/-- Claim C6: the displayed progress is derived, equals 100 when complete and
`currentStep / totalSteps * 100` otherwise, and lies in `[0, 100]` whenever
`currentStep ≤ totalSteps`. -/
theorem progress_derived (pt : ProcessType) (s : ModalState)
    (h : s.currentStep ≤ totalSteps pt) :
    (s.isComplete = true → progress pt s = 100) ∧
    (s.isComplete = false →
      progress pt s = ((s.currentStep : ℚ) / (totalSteps pt : ℚ)) * 100) ∧
    0 ≤ progress pt s ∧ progress pt s ≤ 100 := by
  have h5 : totalSteps pt = 5 := totalSteps_eq_five pt
  have hq : (s.currentStep : ℚ) ≤ 5 := by
    rw [h5] at h
    exact_mod_cast h
  have hq0 : 0 ≤ (s.currentStep : ℚ) := Nat.cast_nonneg _
  cases hc : s.isComplete
  · have hnc : ¬ (s.isComplete = true) := by
      rw [hc]
      exact Bool.false_ne_true
    have hpr : progress pt s = ((s.currentStep : ℚ) / (totalSteps pt : ℚ)) * 100 := by
      unfold progress
      rw [if_neg hnc]
    have heq : progress pt s = (s.currentStep : ℚ) * 20 := by
      rw [hpr, h5]
      push_cast
      ring
    refine ⟨?_, fun _ => hpr, ?_, ?_⟩
    · intro hff
      exact absurd hff Bool.false_ne_true
    · rw [heq]
      linarith
    · rw [heq]
      linarith
  · have hpr : progress pt s = 100 := by
      unfold progress
      rw [if_pos hc]
    refine ⟨fun _ => hpr, ?_, ?_, ?_⟩
    · intro hff
      exact absurd hff (by simp)
    · rw [hpr]
      norm_num
    · rw [hpr]

/-- Witness for C6 at the concrete state `(currentStep, isComplete) = (2, false)`
for the `cleanup` process. -/
theorem progress_derived_at_two :
    0 ≤ progress ProcessType.cleanup
        { isOpen := true, currentStep := 2, isComplete := false, pendingTimers := [] } ∧
    progress ProcessType.cleanup
        { isOpen := true, currentStep := 2, isComplete := false, pendingTimers := [] } ≤ 100 :=
  (progress_derived ProcessType.cleanup
    { isOpen := true, currentStep := 2, isComplete := false, pendingTimers := [] }
    (by decide)).2.2

/-- Claim C8: for every value of the closed `ProcessType` enumeration, both
record lookups succeed and return the configured entry; the tables are total. -/
theorem lookups_total (pt : ProcessType) :
    configLookup pt = some (processConfigs pt) ∧
    statLookup pt = some (resultStats pt) := by
  cases pt <;> exact ⟨rfl, rfl⟩

/-- Claim C9: computing the timer delay is total for every `currentStep`: out of
range it falls back to 1000 ms, in range it is the step's duration unless that
duration is falsy (zero), and it is always positive. -/
theorem timerDelay_total (pt : ProcessType) (cur : Nat) :
    ((processConfigs pt).steps.length ≤ cur → timerDelay pt cur = 1000) ∧
    (∀ st, (processConfigs pt).steps[cur]? = some st →
      timerDelay pt cur = if st.duration = 0 then 1000 else st.duration) ∧
    0 < timerDelay pt cur := by
  refine ⟨?_, ?_, ?_⟩
  · intro hlen
    unfold timerDelay
    rw [List.getElem?_eq_none hlen]
  · intro st hst
    unfold timerDelay
    rw [hst]
  · unfold timerDelay
    cases hst : (processConfigs pt).steps[cur]? with
    | none => exact Nat.succ_pos _
    | some st =>
      show 0 < if st.duration = 0 then 1000 else st.duration
      by_cases hz : st.duration = 0
      · rw [if_pos hz]
        exact Nat.succ_pos _
      · rw [if_neg hz]
        exact Nat.pos_of_ne_zero hz

/-- Witness for C9: index 10 is past the end of the 5-step `cleanup` table, and
the delay falls back to 1000 ms. -/
theorem timerDelay_out_of_range :
    timerDelay ProcessType.cleanup 10 = 1000 :=
  (timerDelay_total ProcessType.cleanup 10).1 (by decide)

/-- Claim C10: every configuration defines exactly 5 steps and every step's
duration lies between 800 and 1800 milliseconds. -/
theorem configs_five_bounded_steps (pt : ProcessType) :
    totalSteps pt = 5 ∧
    ∀ st ∈ (processConfigs pt).steps, 800 ≤ st.duration ∧ st.duration ≤ 1800 := by
  cases pt <;>
    exact ⟨rfl, by intro st hst; fin_cases hst <;> exact ⟨by norm_num, by norm_num⟩⟩

/-- Witness for C10 at the first `cleanup` step (duration 1400 ms). -/
theorem configs_five_bounded_steps_first :
    totalSteps ProcessType.cleanup = 5 ∧
    (800 ≤ 1400 ∧ (1400 : Nat) ≤ 1800) :=
  ⟨(configs_five_bounded_steps ProcessType.cleanup).1,
   (configs_five_bounded_steps ProcessType.cleanup).2
     { label := "Identificando duplicados", duration := 1400, icon := IconRef.folderOpen }
     (by unfold processConfigs; exact List.Mem.head _)⟩

/-- Claim C2: in every reachable state, `isComplete` holds iff
`currentStep ≥ totalSteps`; once complete it stays complete under any event
that keeps the modal open (a timer firing or the `isOpen` prop staying true). -/
theorem isComplete_iff_reached_total (pt : ProcessType) (s : ModalState)
    (h : Reachable pt s) :
    (s.isComplete = true ↔ totalSteps pt ≤ s.currentStep) ∧
    (s.isComplete = true →
      (stepEvent pt s ModalEvent.fire).isComplete = true ∧
      (stepEvent pt s (ModalEvent.setOpen true)).isComplete = true) := by
  obtain ⟨h1, h2, h3, h4, h5⟩ := inv_reachable pt s h
  constructor
  · constructor
    · intro hc
      exact (h2.mp hc).2
    · intro ht
      cases ho : s.isOpen
      · obtain ⟨hz, _, _⟩ := h3 ho
        rw [hz] at ht
        exact absurd ht (Nat.not_le_of_lt (totalSteps_pos pt))
      · exact h2.mpr ⟨ho, ht⟩
  · intro hc
    obtain ⟨ho, ht⟩ := h2.mp hc
    have hpe : s.pendingTimers = [] := by
      by_cases hp : s.pendingTimers = []
      · exact hp
      · obtain ⟨_, hlt⟩ := h4.mp hp
        exact absurd ht (Nat.not_le_of_lt hlt)
    constructor
    · simp only [stepEvent, hpe]
      exact hc
    · have ho' : ({ s with isOpen := true, pendingTimers := [] } : ModalState).isOpen = true := rfl
      simp only [stepEvent, runEffect]
      rw [if_neg (by simp), if_pos ht]

/-- Witness for C2: the invariant instantiated at the state reached by firing
one timer after opening the `cleanup` modal. -/
theorem isComplete_iff_after_one_fire :
    ((stepEvent ProcessType.cleanup (initState ProcessType.cleanup true)
        ModalEvent.fire).isComplete = true ↔
      totalSteps ProcessType.cleanup ≤
        (stepEvent ProcessType.cleanup (initState ProcessType.cleanup true)
          ModalEvent.fire).currentStep) :=
  (isComplete_iff_reached_total ProcessType.cleanup _
    (Reachable.step _ ModalEvent.fire (Reachable.init true))).1

/-- Claim C3: in every reachable state a pending timer that fires advances
`currentStep` by exactly one; events keeping the modal open never decrease
`currentStep`; and `currentStep` never exceeds `totalSteps`. -/
theorem currentStep_steps_by_one (pt : ProcessType) (s : ModalState)
    (h : Reachable pt s) :
    (s.pendingTimers ≠ [] →
      (stepEvent pt s ModalEvent.fire).currentStep = s.currentStep + 1) ∧
    s.currentStep ≤ (stepEvent pt s ModalEvent.fire).currentStep ∧
    s.currentStep ≤ (stepEvent pt s (ModalEvent.setOpen true)).currentStep ∧
    s.currentStep ≤ totalSteps pt := by
  obtain ⟨h1, h2, h3, h4, h5⟩ := inv_reachable pt s h
  have hfire : s.pendingTimers ≠ [] →
      (stepEvent pt s ModalEvent.fire).currentStep = s.currentStep + 1 := by
    intro hp
    obtain ⟨ho, _⟩ := h4.mp hp
    cases hpt : s.pendingTimers with
    | nil => exact absurd hpt hp
    | cons d rest =>
      simp only [stepEvent, hpt]
      rw [runEffect_currentStep pt _ (by simpa using ho)]
  refine ⟨hfire, ?_, ?_, h1⟩
  · cases hpt : s.pendingTimers with
    | nil =>
      simp only [stepEvent, hpt]
      exact Nat.le_refl _
    | cons d rest =>
      rw [hfire (by rw [hpt]; exact List.cons_ne_nil d rest)]
      exact Nat.le_succ _
  · have : (stepEvent pt s (ModalEvent.setOpen true)).currentStep = s.currentStep := by
      simp only [stepEvent]
      exact runEffect_currentStep pt _ rfl
    rw [this]

/-- Witness for C3: firing the pending timer of a freshly opened `cleanup`
modal advances `currentStep` from 0 to 1. -/
theorem currentStep_steps_by_one_at_start :
    (stepEvent ProcessType.cleanup (initState ProcessType.cleanup true)
      ModalEvent.fire).currentStep =
      (initState ProcessType.cleanup true).currentStep + 1 :=
  (currentStep_steps_by_one ProcessType.cleanup _ (Reachable.init true)).1 (by decide)

/-- Claim C7: in every reachable state at most one timer is pending; after any
further event at most one timer is pending; and a timer is pending exactly when
the modal is open with steps remaining, so a stale timer never survives a
dependency change. -/
theorem at_most_one_pending_timer (pt : ProcessType) (s : ModalState)
    (h : Reachable pt s) :
    s.pendingTimers.length ≤ 1 ∧
    (∀ e : ModalEvent, (stepEvent pt s e).pendingTimers.length ≤ 1) ∧
    (s.pendingTimers ≠ [] ↔ (s.isOpen = true ∧ s.currentStep < totalSteps pt)) := by
  have hi := inv_reachable pt s h
  refine ⟨hi.2.2.2.2, ?_, hi.2.2.2.1⟩
  intro e
  exact (inv_step pt s e hi).2.2.2.2

/-- Witness for C7 at the freshly opened `screenshots` modal. -/
theorem at_most_one_pending_timer_at_start :
    (initState ProcessType.screenshots true).pendingTimers.length ≤ 1 :=
  (at_most_one_pending_timer ProcessType.screenshots _ (Reachable.init true)).1
